import Mathlib

/-!
Verification of the device-state cache and event-translation engine of
`udiskie/udisks1.py`: the classes `Daemon`, `CachedDevice`, `Job` and the
module-level action/event tables, shallowly embedded in Lean.

Modelling conventions:
* Python dictionaries (`Daemon._devices`, `Daemon._jobs`, `Daemon._errors`
  and the inner per-action error dictionaries) are association lists over
  `String` keys, handled by `alGet` / `alInsert` / `alErase` below.
* A possibly-absent device reference (`self[object_path]` may be `None`)
  is `Option CachedDevice`; Python truthiness of such a reference
  (`DeviceBase.__bool__` returns `is_valid`, `None` is falsy) is `truthy`.
* Exceptions that a handler can raise (`AttributeError` from an attribute
  access on `None`, `KeyError` from a dictionary lookup or deletion) are
  `Except PyErr`; the handler result is the list of published events
  together with either the successor state or the raised error.
* The job progress percentage is a DBus double that is only carried along,
  never computed with; it is embedded as an opaque `Int` payload.
-/

/-- Association-list lookup, modelling Python `d[k]` / `d.get(k)`. -/
def alGet {α : Type} : List (String × α) → String → Option α
  | [], _ => none
  | (k, v) :: rest, key => if k = key then some v else alGet rest key

/-- Association-list insertion, modelling Python `d[k] = v`: an existing
binding is replaced in place, a new key is appended at the end. -/
def alInsert {α : Type} : List (String × α) → String → α → List (String × α)
  | [], key, v => [(key, v)]
  | (k, w) :: rest, key, v =>
    if k = key then (key, v) :: rest else (k, w) :: alInsert rest key v

/-- Association-list deletion, modelling Python `del d[k]` / `d.pop(k)`. -/
def alErase {α : Type} : List (String × α) → String → List (String × α)
  | [], _ => []
  | (k, w) :: rest, key =>
    if k = key then alErase rest key else (k, w) :: alErase rest key

theorem alGet_alInsert_self {α : Type} (l : List (String × α)) (k : String) (v : α) :
    alGet (alInsert l k v) k = some v := by
  induction l with
  | nil => simp [alInsert, alGet]
  | cons hd tl ih =>
    obtain ⟨k', w⟩ := hd
    by_cases hk : k' = k
    · simp [alInsert, hk, alGet]
    · simp [alInsert, hk, alGet, ih]

theorem alGet_alInsert_ne {α : Type} (l : List (String × α)) (k k' : String) (v : α)
    (h : k' ≠ k) : alGet (alInsert l k v) k' = alGet l k' := by
  induction l with
  | nil => simp [alInsert, alGet, Ne.symm h]
  | cons hd tl ih =>
    obtain ⟨k₀, w⟩ := hd
    by_cases hk : k₀ = k
    · subst hk
      simp [alInsert, alGet, Ne.symm h]
    · simp only [alInsert, if_neg hk, alGet]
      by_cases hq : k₀ = k'
      · simp [hq]
      · simp [hq, ih]

theorem alGet_alErase_self {α : Type} (l : List (String × α)) (k : String) :
    alGet (alErase l k) k = none := by
  induction l with
  | nil => simp [alErase, alGet]
  | cons hd tl ih =>
    obtain ⟨k₀, w⟩ := hd
    by_cases hk : k₀ = k
    · simp [alErase, hk, ih]
    · simp [alErase, hk, alGet, ih]

theorem alGet_alErase_ne {α : Type} (l : List (String × α)) (k k' : String)
    (h : k' ≠ k) : alGet (alErase l k) k' = alGet l k' := by
  induction l with
  | nil => simp [alErase]
  | cons hd tl ih =>
    obtain ⟨k₀, w⟩ := hd
    by_cases hk : k₀ = k
    · subst hk
      simp [alErase, alGet, Ne.symm h, ih]
    · simp only [alErase, if_neg hk, alGet]
      by_cases hq : k₀ = k'
      · simp [hq]
      · simp [hq, ih]

/-- The property set that `CachedDevice.__init__` reads from an
`OnlineDevice` when taking a snapshot: the scalar properties of the
`org.freedesktop.UDisks.Device` wrapper, plus the object paths that the
online relational properties (`drive`, `partition_slave`,
`luks_cleartext_slave`, `luks_cleartext_holder`) resolve to at snapshot
time (the `_CachedDeviceProperty` setter stores only `object_path`, or
`None`). `is_valid` is whether the DBus object still answers property
reads. -/
structure OnlineProps where
  object_path : String
  is_valid : Bool
  is_drive : Bool
  is_luks : Bool
  is_mounted : Bool
  is_unlocked : Bool
  has_media : Bool
  device_file : String
  id_usage : String
  id_type : String
  id_label : String
  id_uuid : String
  mount_paths : List String
  drive_path : Option String
  partition_slave_path : Option String
  luks_cleartext_slave_path : Option String
  luks_cleartext_holder_path : Option String
  deriving DecidableEq, Repr

/-- `CachedDevice`: one snapshot in `Daemon._devices`. Scalar properties
are the values captured at creation time; the four relational properties
are kept as the stored object paths (`_drive` etc. in the Python),
resolved through `self._daemon` at access time — which is the Sniffer
(the live source), since every wrapped `OnlineDevice` is built by
`Sniffer.get` with `udisks = self`. -/
structure CachedDevice where
  object_path : String
  is_valid : Bool
  is_drive : Bool
  is_luks : Bool
  is_mounted : Bool
  is_unlocked : Bool
  has_media : Bool
  device_file : String
  id_usage : String
  id_type : String
  id_label : String
  id_uuid : String
  mount_paths : List String
  drive_path : Option String
  partition_slave_path : Option String
  luks_cleartext_slave_path : Option String
  luks_cleartext_holder_path : Option String
  deriving DecidableEq, Repr

/-- `Job`: the per-device record kept in `Daemon._jobs`. -/
structure Job where
  job_id : String
  percentage : Int
  deriving DecidableEq, Repr

/-- The exceptions the embedded handlers can raise. -/
inductive PyErr where
  | attributeError
  | keyError
  | typeError
  deriving DecidableEq, Repr

/-- One call to `self.trigger(...)`: either a plain device event
(`<stem>ed`, `device_added`, ...), a progress event (`<stem>ing` with the
percentage), or the `job_failed` event with the `device_<action>` tag and
the consumed error message. -/
inductive Event where
  | plainE (name : String) (dev : Option CachedDevice)
  | progressE (name : String) (dev : Option CachedDevice) (percentage : Int)
  | failedE (dev : Option CachedDevice) (action_tag : String) (message : String)
  deriving DecidableEq, Repr

/-- The mutable state of a `Daemon`: the registry `_devices`, the job map
`_jobs`, and the error slots `_errors` (outer key: action name, inner key:
object path). -/
structure DaemonState where
  devices : List (String × CachedDevice)
  jobs : List (String × Job)
  errors : List (String × List (String × String))
  deriving DecidableEq, Repr

/-- Python truthiness of an optional device reference: `None` is falsy and
`DeviceBase.__bool__` returns `is_valid`. -/
def truthy : Option CachedDevice → Bool
  | none => false
  | some d => d.is_valid

/-- `CachedDevice.__init__`: cache every property of the online device at
creation time. The overloaded relational properties store the related
object path via the `_CachedDeviceProperty` setter. -/
def CachedDevice.ofOnline (d : OnlineProps) : CachedDevice :=
  { object_path := d.object_path
    is_valid := d.is_valid
    is_drive := d.is_drive
    is_luks := d.is_luks
    is_mounted := d.is_mounted
    is_unlocked := d.is_unlocked
    has_media := d.has_media
    device_file := d.device_file
    id_usage := d.id_usage
    id_type := d.id_type
    id_label := d.id_label
    id_uuid := d.id_uuid
    mount_paths := d.mount_paths
    drive_path := d.drive_path
    partition_slave_path := d.partition_slave_path
    luks_cleartext_slave_path := d.luks_cleartext_slave_path
    luks_cleartext_holder_path := d.luks_cleartext_holder_path }

/-- `Daemon.get`: `self._devices.get(object_path)`. -/
def DaemonState.get (s : DaemonState) (object_path : String) : Option CachedDevice :=
  alGet s.devices object_path

/-- `_CachedDeviceProperty.get` for `drive`:
`self._daemon[getattr(self, key, None)]`. `self._daemon` is
`device.udisks`, and every `OnlineDevice` wrapped by a `CachedDevice` is
constructed by `Sniffer.get` with `udisks = self`, so the stored path is
resolved through the Sniffer: `Sniffer.get` builds a fresh live proxy for
the path via `bus.get_object`, and a stored `None` raises inside
`bus.get_object` (the object path must be a string). -/
def CachedDevice.drive (d : CachedDevice) (sniffer : String → OnlineProps) :
    Except PyErr OnlineProps :=
  match d.drive_path with
  | none => Except.error PyErr.typeError
  | some p => Except.ok (sniffer p)

/-- `_CachedDeviceProperty.get` for `partition_slave`: resolved through
the Sniffer, like `drive`. -/
def CachedDevice.partition_slave (d : CachedDevice) (sniffer : String → OnlineProps) :
    Except PyErr OnlineProps :=
  match d.partition_slave_path with
  | none => Except.error PyErr.typeError
  | some p => Except.ok (sniffer p)

/-- `_CachedDeviceProperty.get` for `luks_cleartext_slave`: resolved
through the Sniffer, like `drive`. -/
def CachedDevice.luks_cleartext_slave (d : CachedDevice)
    (sniffer : String → OnlineProps) : Except PyErr OnlineProps :=
  match d.luks_cleartext_slave_path with
  | none => Except.error PyErr.typeError
  | some p => Except.ok (sniffer p)

/-- `_CachedDeviceProperty.get` for `luks_cleartext_holder`: resolved
through the Sniffer, like `drive`. -/
def CachedDevice.luks_cleartext_holder (d : CachedDevice)
    (sniffer : String → OnlineProps) : Except PyErr OnlineProps :=
  match d.luks_cleartext_holder_path with
  | none => Except.error PyErr.typeError
  | some p => Except.ok (sniffer p)

/-- Modelled from the spec: the `drive` accessor as the spec asserts it —
and as the code's own documentation promises (`_CachedDeviceProperty`'s
docstring says it returns "the current known CachedDevice state", and the
class comment says the overloaded properties return `CachedDevice`
instances cached at access time): the stored object path resolved against
the Daemon registry at each access, yielding its current entry or
absence. No code in the module implements this resolution. -/
def CachedDevice.drive_spec (d : CachedDevice) (s : DaemonState) : Option CachedDevice :=
  match d.drive_path with
  | none => none
  | some p => s.get p

/-- `Daemon.paths`: iterate over the object paths of all valid cached
devices (`if device` filters by truthiness, i.e. by `is_valid`). -/
def DaemonState.paths (s : DaemonState) : List String :=
  (s.devices.filter (fun q => q.2.is_valid)).map Prod.fst

/-- `Daemon._invalidate`: if the path is cached, store a copy of the
current entry with `is_valid` forced to `False`; the previous snapshot
object itself is not mutated. -/
def DaemonState.invalidate (s : DaemonState) (object_path : String) : DaemonState :=
  match alGet s.devices object_path with
  | none => s
  | some d =>
    { s with devices := alInsert s.devices object_path { d with is_valid := false } }

/-- `Daemon.update`: fetch the live device from the sniffer, build a fresh
snapshot; store it if it is valid or the path was never seen, otherwise
invalidate the existing entry. Returns the fresh snapshot either way. -/
def DaemonState.update (s : DaemonState) (sniffer : String → OnlineProps)
    (object_path : String) : CachedDevice × DaemonState :=
  let cached := CachedDevice.ofOnline (sniffer object_path)
  if cached.is_valid || (alGet s.devices object_path).isNone then
    (cached, { s with devices := alInsert s.devices object_path cached })
  else
    (cached, s.invalidate object_path)

/-- `Daemon.set_error`: `self._errors[action][device.object_path] = message`;
an action key missing from the outer dictionary raises `KeyError`. -/
def DaemonState.set_error (s : DaemonState) (object_path action message : String) :
    Except PyErr DaemonState :=
  match alGet s.errors action with
  | none => Except.error PyErr.keyError
  | some slot =>
    Except.ok
      { s with errors := alInsert s.errors action (alInsert slot object_path message) }

/-- `Daemon._action_mapping`: raw job kind to action name. -/
def action_mapping : List (String × String) :=
  [("FilesystemMount", "mount"),
   ("FilesystemUnmount", "unmount"),
   ("LuksUnlock", "unlock"),
   ("LuksLock", "lock"),
   ("DriveDetach", "detach"),
   ("DriveEject", "eject")]

/-- `Daemon._event_mapping`: action name to event stem. -/
def event_mapping : List (String × String) :=
  [("mount", "device_mount"),
   ("unmount", "device_unmount"),
   ("unlock", "device_unlock"),
   ("lock", "device_lock"),
   ("eject", "media_remov"),
   ("detach", "device_remov")]

/-- `Daemon._check_success`: success predicate table keyed by raw job
kind. `not dev` is Python truthiness (absent or invalid snapshot), and an
attribute access such as `dev.is_mounted` on an absent device (`None`)
raises `AttributeError`; an unknown key raises `KeyError`. -/
def check_success (job_id : String) (dev : Option CachedDevice) : Except PyErr Bool :=
  if job_id = "FilesystemMount" then
    match dev with
    | none => Except.error PyErr.attributeError
    | some d => Except.ok d.is_mounted
  else if job_id = "FilesystemUnmount" then
    Except.ok (match dev with
      | none => true
      | some d => !d.is_valid || !d.is_mounted)
  else if job_id = "LuksUnlock" then
    match dev with
    | none => Except.error PyErr.attributeError
    | some d => Except.ok d.is_unlocked
  else if job_id = "LuksLock" then
    Except.ok (match dev with
      | none => true
      | some d => !d.is_valid || !d.is_unlocked)
  else if job_id = "DriveDetach" then
    Except.ok (!truthy dev)
  else if job_id = "DriveEject" then
    Except.ok (match dev with
      | none => true
      | some d => !d.is_valid || !d.has_media)
  else Except.error PyErr.keyError

/-- The initial `Daemon._errors` dictionary: one empty slot per action. -/
def initial_errors : List (String × List (String × String)) :=
  [("mount", []), ("unmount", []), ("unlock", []), ("lock", []),
   ("eject", []), ("detach", [])]

/-- The effective raw job kind used by `Daemon._device_job_changed`: for a
terminal notification whose path has a recorded job, the recorded kind
replaces the one passed in; otherwise the passed-in kind is used. -/
def effective_job_id (s : DaemonState) (object_path : String)
    (job_in_progress : Bool) (job_id_arg : String) : String :=
  if job_in_progress then job_id_arg
  else
    match alGet s.jobs object_path with
    | some job => job.job_id
    | none => job_id_arg

/-- `Daemon._device_job_changed`: classify the job kind (unknown kinds
return silently), look up the current cached device, and either record the
job and publish the `<stem>ing` progress event, or on a terminal
notification evaluate the success predicate on the cached entry and
publish `<stem>ed` (deleting the job record) or `job_failed` (consuming
the error slot). The result is the list of triggered events together with
the successor state or the raised exception. -/
def device_job_changed (s : DaemonState) (object_path : String)
    (job_in_progress : Bool) (job_id_arg : String) (job_percentage : Int) :
    List Event × Except PyErr DaemonState :=
  let job_id := effective_job_id s object_path job_in_progress job_id_arg
  match alGet action_mapping job_id with
  | none => ([], Except.ok s)
  | some action =>
    match alGet event_mapping action with
    | none => ([], Except.error PyErr.keyError)
    | some event_name =>
      let dev := s.get object_path
      if job_in_progress then
        ([Event.progressE (event_name ++ "ing") dev job_percentage],
         Except.ok { s with jobs := alInsert s.jobs object_path (Job.mk job_id job_percentage) })
      else
        match check_success job_id dev with
        | Except.error e => ([], Except.error e)
        | Except.ok true =>
          if (alGet s.jobs object_path).isSome then
            ([Event.plainE (event_name ++ "ed") dev],
             Except.ok { s with jobs := alErase s.jobs object_path })
          else
            ([Event.plainE (event_name ++ "ed") dev], Except.error PyErr.keyError)
        | Except.ok false =>
          match alGet s.errors action with
          | none => ([], Except.error PyErr.keyError)
          | some slot =>
            ([Event.failedE dev ("device_" ++ action) ((alGet slot object_path).getD "")],
             Except.ok { s with errors := alInsert s.errors action (alErase slot object_path) })

/-- The stems from which `Daemon.__init__` builds its event names. -/
def event_stems : List String :=
  ["device_add", "device_remov", "device_mount", "device_unmount",
   "media_add", "media_remov", "device_unlock", "device_lock", "device_chang"]

/-- The event-name list built in `Daemon.__init__`: every stem with the
suffixes `ed` and `ing`, plus `job_failed`. -/
def event_names : List String :=
  (List.flatMap ["ed", "ing"] (fun suffix => event_stems.map (fun stem => stem ++ suffix)))
    ++ ["job_failed"]

/-- The six semantic actions: the closed enumeration the spec fixes for
jobs (mount, unmount, unlock, lock, eject, detach). -/
inductive UAction where
  | mount
  | unmount
  | unlock
  | lock
  | eject
  | detach
  deriving DecidableEq, Repr

/-- The action name string of a `UAction`, as it appears in the values of
`_action_mapping`, the keys of `_event_mapping` and `_errors`. -/
def UAction.py_name : UAction → String
  | .mount => "mount"
  | .unmount => "unmount"
  | .unlock => "unlock"
  | .lock => "lock"
  | .eject => "eject"
  | .detach => "detach"

/-- The raw job kind of a `UAction` (the key of `_action_mapping` mapping
to it). -/
def UAction.raw_kind : UAction → String
  | .mount => "FilesystemMount"
  | .unmount => "FilesystemUnmount"
  | .unlock => "LuksUnlock"
  | .lock => "LuksLock"
  | .eject => "DriveEject"
  | .detach => "DriveDetach"

/-- Modelled from the spec: the success-predicate column of the action
table, evaluated on the post-job snapshot or its absence. Mount: snapshot
is mounted; unmount: absent/invalid or not mounted; unlock: snapshot is
unlocked (has a cleartext holder); lock: absent/invalid or not unlocked;
eject: absent/invalid or no media; detach: absent/invalid. -/
def spec_success : UAction → Option CachedDevice → Bool
  | .mount, none => false
  | .mount, some d => d.is_mounted
  | .unmount, none => true
  | .unmount, some d => !d.is_valid || !d.is_mounted
  | .unlock, none => false
  | .unlock, some d => d.is_unlocked
  | .lock, none => true
  | .lock, some d => !d.is_valid || !d.is_unlocked
  | .eject, none => true
  | .eject, some d => !d.is_valid || !d.has_media
  | .detach, none => true
  | .detach, some d => !d.is_valid

/-- The seventeen event names asserted by the spec for the Event Engine. -/
def spec_event_names : List String :=
  ["device_added", "device_removed", "device_changed",
   "device_mounting", "device_mounted", "device_unmounting", "device_unmounted",
   "device_locking", "device_locked", "device_unlocking", "device_unlocked",
   "device_changing", "media_adding", "media_added", "media_removing",
   "media_removed", "job_failed"]

/-- Modelled from the spec: `_device_job_changed` as the spec demands it,
identical to `device_job_changed` except that for a terminal notification
the Registry entry for the path is refreshed from the Live Source (via
`update`) before the success predicate is evaluated, so the predicate sees
post-operation state. -/
def device_job_changed_spec (sniffer : String → OnlineProps) (s : DaemonState)
    (object_path : String) (job_in_progress : Bool) (job_id_arg : String)
    (job_percentage : Int) : List Event × Except PyErr DaemonState :=
  let job_id := effective_job_id s object_path job_in_progress job_id_arg
  match alGet action_mapping job_id with
  | none => ([], Except.ok s)
  | some action =>
    match alGet event_mapping action with
    | none => ([], Except.error PyErr.keyError)
    | some event_name =>
      if job_in_progress then
        ([Event.progressE (event_name ++ "ing") (s.get object_path) job_percentage],
         Except.ok { s with jobs := alInsert s.jobs object_path (Job.mk job_id job_percentage) })
      else
        let s1 := (s.update sniffer object_path).2
        match check_success job_id (s1.get object_path) with
        | Except.error e => ([], Except.error e)
        | Except.ok true =>
          if (alGet s1.jobs object_path).isSome then
            ([Event.plainE (event_name ++ "ed") (s1.get object_path)],
             Except.ok { s1 with jobs := alErase s1.jobs object_path })
          else
            ([Event.plainE (event_name ++ "ed") (s1.get object_path)],
             Except.error PyErr.keyError)
        | Except.ok false =>
          match alGet s1.errors action with
          | none => ([], Except.error PyErr.keyError)
          | some slot =>
            ([Event.failedE (s1.get object_path) ("device_" ++ action)
                ((alGet slot object_path).getD "")],
             Except.ok { s1 with errors := alInsert s1.errors action (alErase slot object_path) })

/-- Test fixture: a valid, unmounted filesystem device snapshot. -/
def dev_plain : CachedDevice :=
  { object_path := "d1", is_valid := true, is_drive := false, is_luks := false,
    is_mounted := false, is_unlocked := false, has_media := true,
    device_file := "/dev/sdb1", id_usage := "filesystem", id_type := "ext4",
    id_label := "DATA", id_uuid := "1111", mount_paths := [],
    drive_path := none, partition_slave_path := none,
    luks_cleartext_slave_path := none, luks_cleartext_holder_path := none }

/-- Test fixture: live-source properties reporting the device as mounted
(the post-operation state after a successful mount job). -/
def props_mounted : OnlineProps :=
  { object_path := "d1", is_valid := true, is_drive := false, is_luks := false,
    is_mounted := true, is_unlocked := false, has_media := true,
    device_file := "/dev/sdb1", id_usage := "filesystem", id_type := "ext4",
    id_label := "DATA", id_uuid := "1111", mount_paths := ["/mnt/data"],
    drive_path := none, partition_slave_path := none,
    luks_cleartext_slave_path := none, luks_cleartext_holder_path := none }

/-- Test fixture: a live source answering every path with `props_mounted`. -/
def sniffer_mounted : String → OnlineProps := fun _ => props_mounted

/-- Test fixture: the snapshot built from `props_mounted`. -/
def dev_mounted_fresh : CachedDevice := CachedDevice.ofOnline props_mounted

/-- Test fixture: live-source properties whose drive resolves to the
object path `drv`. -/
def props_with_drive : OnlineProps :=
  { props_mounted with drive_path := some "drv" }

/-- Test fixture: the registry caches the unmounted snapshot while a mount
job for it is in flight. -/
def st_job : DaemonState :=
  { devices := [("d1", dev_plain)],
    jobs := [("d1", Job.mk "FilesystemMount" 0)],
    errors := initial_errors }

/-- Test fixture: the registry already caches the mounted snapshot while a
mount job for it is in flight. -/
def st_mounted_job : DaemonState :=
  { devices := [("d1", dev_mounted_fresh)],
    jobs := [("d1", Job.mk "FilesystemMount" 0)],
    errors := initial_errors }

/-- Test fixture: the mounted snapshot is cached but no job is recorded. -/
def st_no_job : DaemonState :=
  { devices := [("d1", dev_mounted_fresh)], jobs := [], errors := initial_errors }

/-- Test fixture: `st_job` after `set_error("d1", "mount", "mount failed msg")`. -/
def st_err : DaemonState :=
  { devices := [("d1", dev_plain)],
    jobs := [("d1", Job.mk "FilesystemMount" 0)],
    errors := alInsert initial_errors "mount" [("d1", "mount failed msg")] }

/-- Test fixture: an invalidated snapshot for the object path `drv`. -/
def dev_drv_invalid : CachedDevice :=
  { dev_plain with object_path := "drv", is_valid := false }

/-- Test fixture: the Daemon registry currently holds the invalidated
entry for `drv`. -/
def st_drv_invalid : DaemonState :=
  { devices := [("drv", dev_drv_invalid)], jobs := [], errors := initial_errors }

theorem mem_valid_paths_aux (l : List (String × CachedDevice)) (p : String)
    (h : (l.map Prod.fst).Nodup) :
    p ∈ (l.filter (fun q => q.2.is_valid)).map Prod.fst
      ↔ ∃ d, alGet l p = some d ∧ d.is_valid = true := by
  induction l with
  | nil => simp [alGet]
  | cons hd tl ih =>
    obtain ⟨k, v⟩ := hd
    have hnd : (tl.map Prod.fst).Nodup := (List.nodup_cons.mp (by simpa using h)).2
    have hni : k ∉ tl.map Prod.fst := (List.nodup_cons.mp (by simpa using h)).1
    by_cases hk : k = p
    · subst hk
      by_cases hv : v.is_valid
      · simp [List.filter_cons, hv, alGet]
      · have hno : k ∉ (tl.filter (fun q => q.2.is_valid)).map Prod.fst := by
          intro hmem
          apply hni
          rcases List.mem_map.mp hmem with ⟨x, hx, hfx⟩
          exact List.mem_map.mpr ⟨x, (List.mem_filter.mp hx).1, hfx⟩
        simp [List.filter_cons, hv, alGet, hno]
    · by_cases hv : v.is_valid
      · simp [List.filter_cons, hv, alGet, hk, ih hnd, Ne.symm hk]
      · simp [List.filter_cons, hv, alGet, hk, ih hnd]

/-- C1, counterexample. On the state `st_job` (cache says unmounted, live
source says mounted) a terminal `FilesystemMount` notification makes the
code publish `job_failed` evaluated on the stale cached snapshot, while
the spec-mandated refresh-first variant publishes `device_mounted` on the
fresh post-operation snapshot: the Daemon does not refresh the Registry
entry before evaluating the success predicate. -/
theorem job_changed_refresh_counterexample :
    device_job_changed st_job "d1" false "FilesystemMount" 100
      = ([Event.failedE (some dev_plain) "device_mount" ""], Except.ok st_job)
    ∧ device_job_changed_spec sniffer_mounted st_job "d1" false "FilesystemMount" 100
      = ([Event.plainE "device_mounted" (some dev_mounted_fresh)],
         Except.ok { devices := [("d1", dev_mounted_fresh)], jobs := [],
                     errors := initial_errors })
    ∧ ([Event.failedE (some dev_plain) "device_mount" ""] : List Event)
      ≠ [Event.plainE "device_mounted" (some dev_mounted_fresh)] :=
  ⟨rfl, rfl, by decide⟩

/-- C1, amended: processing a job-changed notification never modifies the
device registry — no Registry refresh happens before the success predicate
is evaluated, so the predicate sees the previously cached (possibly stale)
entry; it sees post-operation state only if an earlier notification
already updated the cache. -/
theorem job_changed_no_registry_refresh (s : DaemonState) (p k : String)
    (prog : Bool) (pct : Int) (s2 : DaemonState)
    (h : (device_job_changed s p prog k pct).2 = Except.ok s2) :
    s2.devices = s.devices := by
  simp only [device_job_changed] at h
  repeat' split at h
  all_goals simp_all
  all_goals (rw [← h])

/-- C1, witness for the amended theorem: a successful terminal mount job
leaves the registry of `st_mounted_job` unchanged. -/
theorem job_changed_no_registry_refresh_witness :
    ({ devices := [("d1", dev_mounted_fresh)], jobs := [],
       errors := initial_errors } : DaemonState).devices = st_mounted_job.devices :=
  job_changed_no_registry_refresh st_mounted_job "d1" "" false 0
    { devices := [("d1", dev_mounted_fresh)], jobs := [], errors := initial_errors } rfl

/-- C2: for every recognized action, success of the code's predicate
(`_check_success`, keyed by the raw job kind) coincides with the spec
table's predicate on every post-job snapshot, including an absent one; the
first conjunct ties the raw kind to the action via `_action_mapping`. -/
theorem check_success_matches_spec_table (a : UAction) (dev : Option CachedDevice) :
    alGet action_mapping a.raw_kind = some a.py_name
    ∧ (check_success a.raw_kind dev = Except.ok true ↔ spec_success a dev = true) := by
  cases a <;> cases dev <;>
    simp [UAction.raw_kind, UAction.py_name, action_mapping, alGet,
      check_success, spec_success, truthy]

/-- C2, witness: the mount predicate instantiated on a mounted snapshot. -/
theorem check_success_matches_spec_table_witness :
    alGet action_mapping (UAction.raw_kind UAction.mount)
        = some (UAction.py_name UAction.mount)
    ∧ (check_success (UAction.raw_kind UAction.mount) (some dev_mounted_fresh)
          = Except.ok true
        ↔ spec_success UAction.mount (some dev_mounted_fresh) = true) :=
  check_success_matches_spec_table UAction.mount (some dev_mounted_fresh)

/-- C3, counterexample. On `st_job` the recorded mount job fails (the
cached snapshot is unmounted); processing the terminal notification
publishes `job_failed` but leaves the Job entry in the job map, so the
entry is not removed regardless of outcome. -/
theorem job_failed_keeps_job_entry_counterexample :
    ¬ (∀ (s : DaemonState) (p karg : String) (pct : Int) (job : Job) (a : String)
        (s2 : DaemonState),
        alGet s.jobs p = some job
        → alGet action_mapping job.job_id = some a
        → (device_job_changed s p false karg pct).2 = Except.ok s2
        → alGet s2.jobs p = none) := by
  intro hclaim
  have h := hclaim st_job "d1" "FilesystemMount" 100 (Job.mk "FilesystemMount" 0) "mount"
      st_job (by decide) (by decide) rfl
  exact absurd h (by decide)

/-- C3, amended: for a device with a recorded Job, a terminal notification
with a recognized kind removes the Job entry exactly when the outcome is
success (the `*ed` event); on failure (the `job_failed` event) the Job
entry is left in the job map unchanged. -/
theorem terminal_job_removal_by_outcome (s : DaemonState) (p karg : String)
    (pct : Int) (job : Job) (a : String) (s2 : DaemonState)
    (hjob : alGet s.jobs p = some job)
    (ha : alGet action_mapping job.job_id = some a)
    (hr : (device_job_changed s p false karg pct).2 = Except.ok s2) :
    (check_success job.job_id (s.get p) = Except.ok true → s2.jobs = alErase s.jobs p)
    ∧ (check_success job.job_id (s.get p) = Except.ok false → s2.jobs = s.jobs) := by
  have heff : effective_job_id s p false karg = job.job_id := by
    simp [effective_job_id, hjob]
  simp only [device_job_changed, heff, ha] at hr
  cases hev : alGet event_mapping a with
  | none => rw [hev] at hr; simp at hr
  | some en =>
    rw [hev] at hr
    cases hcs : check_success job.job_id (s.get p) with
    | error e => rw [hcs] at hr; simp at hr
    | ok b =>
      rw [hcs] at hr
      cases b with
      | true =>
        have hj : (alGet s.jobs p).isSome = true := by rw [hjob]; rfl
        simp [hj] at hr
        subst hr
        constructor
        · intro _; rfl
        · intro hf; simp at hf
      | false =>
        cases herr : alGet s.errors a with
        | none => rw [herr] at hr; simp at hr
        | some slot =>
          rw [herr] at hr
          simp at hr
          subst hr
          constructor
          · intro ht; simp at ht
          · intro _; rfl

/-- C3, witness for the amended theorem: a successful terminal mount on
`st_mounted_job` erases the Job entry. -/
theorem terminal_job_removal_by_outcome_witness :
    ({ devices := [("d1", dev_mounted_fresh)], jobs := [],
       errors := initial_errors } : DaemonState).jobs = alErase st_mounted_job.jobs "d1" :=
  (terminal_job_removal_by_outcome st_mounted_job "d1" "" 0 (Job.mk "FilesystemMount" 0)
      "mount" { devices := [("d1", dev_mounted_fresh)], jobs := [],
                errors := initial_errors }
      (by decide) (by decide) rfl).1 rfl

/-- C4: a job-changed notification whose effective raw job kind (the
recorded kind for a terminal notification, otherwise the kind passed in)
has no action mapping publishes no event and returns the state — job map,
device registry and error slots — unchanged, raising nothing. -/
theorem unknown_job_kind_ignored (s : DaemonState) (p : String) (prog : Bool)
    (k : String) (pct : Int)
    (h : alGet action_mapping (effective_job_id s p prog k) = none) :
    device_job_changed s p prog k pct = ([], Except.ok s) := by
  simp [device_job_changed, h]

/-- C4, witness: an in-progress notification with the unknown kind `Foo`
is silently ignored on `st_job`. -/
theorem unknown_job_kind_ignored_witness :
    device_job_changed st_job "d1" true "Foo" 5 = ([], Except.ok st_job) :=
  unknown_job_kind_ignored st_job "d1" true "Foo" 5 rfl

/-- C5: in every registry state with distinct keys (a Python dict always
has them), iterating `paths` yields exactly the identifiers whose current
cached snapshot is valid; an identifier whose latest snapshot is invalid
is never yielded. -/
theorem paths_iff_valid_snapshot (s : DaemonState) (p : String)
    (h : (s.devices.map Prod.fst).Nodup) :
    p ∈ s.paths ↔ ∃ d, s.get p = some d ∧ d.is_valid = true :=
  mem_valid_paths_aux s.devices p h

/-- C5, witness: instantiated on `st_job` and the identifier `d1`. -/
theorem paths_iff_valid_snapshot_witness :
    "d1" ∈ st_job.paths ↔ ∃ d, st_job.get "d1" = some d ∧ d.is_valid = true :=
  paths_iff_valid_snapshot st_job "d1" (by decide)

/-- C6: when a terminal job with a recognized action fails, the published
`job_failed` event carries the message in the error slot for that action
and identifier (empty if none), the slot is cleared — re-querying it
returns none — and every other (action, identifier) slot is unchanged;
moreover if the state was produced by `set_error(p, a, msg)` the carried
message is exactly `msg`. -/
theorem error_slot_consumed_once (s : DaemonState) (p karg a en : String) (pct : Int)
    (slot : List (String × String))
    (ha : alGet action_mapping (effective_job_id s p false karg) = some a)
    (hen : alGet event_mapping a = some en)
    (hslot : alGet s.errors a = some slot)
    (hfail : check_success (effective_job_id s p false karg) (s.get p) = Except.ok false) :
    device_job_changed s p false karg pct
      = ([Event.failedE (s.get p) ("device_" ++ a) ((alGet slot p).getD "")],
         Except.ok { s with errors := alInsert s.errors a (alErase slot p) })
    ∧ alGet (alInsert s.errors a (alErase slot p)) a = some (alErase slot p)
    ∧ alGet (alErase slot p) p = none
    ∧ (∀ b, b ≠ a → alGet (alInsert s.errors a (alErase slot p)) b = alGet s.errors b)
    ∧ (∀ q, q ≠ p → alGet (alErase slot p) q = alGet slot q)
    ∧ (∀ (s0 : DaemonState) (slot0 : List (String × String)) (msg : String),
        alGet s0.errors a = some slot0
        → DaemonState.set_error s0 p a msg = Except.ok s
        → (alGet slot p).getD "" = msg) := by
  refine ⟨?_, alGet_alInsert_self _ _ _, alGet_alErase_self _ _, ?_, ?_, ?_⟩
  · simp [device_job_changed, ha, hen, hfail, hslot]
  · intro b hb; exact alGet_alInsert_ne _ _ _ _ hb
  · intro q hq; exact alGet_alErase_ne _ _ _ hq
  · intro s0 slot0 msg h0 hset
    simp [DaemonState.set_error, h0] at hset
    have hs : s.errors = alInsert s0.errors a (alInsert slot0 p msg) := by rw [← hset]
    rw [hs, alGet_alInsert_self] at hslot
    injection hslot with h2
    rw [← h2, alGet_alInsert_self]
    rfl

/-- C6, witness: on `st_err` (a pre-registered message for the mount slot
of `d1`) the failing mount job publishes `job_failed` with that message
and clears the slot. -/
theorem error_slot_consumed_once_witness :
    device_job_changed st_err "d1" false "" 0
      = ([Event.failedE (some dev_plain) "device_mount" "mount failed msg"],
         Except.ok { st_err with
            errors := alInsert st_err.errors "mount"
              (alErase [("d1", "mount failed msg")] "d1") }) :=
  (error_slot_consumed_once st_err "d1" "" "mount" "device_mount" 0
      [("d1", "mount failed msg")] (by decide) (by decide) (by decide) rfl).1

/-- C7: for an identifier present in the registry, `_invalidate` replaces
the entry by a copy whose validity flag is false and whose every other
cached field is preserved, and leaves every other identifier's entry
untouched; the previous snapshot value itself is immutable, so a caller
holding it keeps the old field values. -/
theorem invalidate_changes_only_validity (s : DaemonState) (p : String)
    (d : CachedDevice) (h : s.get p = some d) :
    (s.invalidate p).get p = some { d with is_valid := false }
    ∧ ∀ q, q ≠ p → (s.invalidate p).get q = s.get q := by
  have h' : alGet s.devices p = some d := h
  constructor
  · simp [DaemonState.invalidate, h', DaemonState.get, alGet_alInsert_self]
  · intro q hq
    simp [DaemonState.invalidate, h', DaemonState.get, alGet_alInsert_ne _ _ _ _ hq]

/-- C7, witness: invalidating `d1` in `st_job` yields the old snapshot
with only `is_valid` flipped to false. -/
theorem invalidate_changes_only_validity_witness :
    (st_job.invalidate "d1").get "d1" = some { dev_plain with is_valid := false } :=
  (invalidate_changes_only_validity st_job "d1" dev_plain rfl).1

/-- C8, counterexample: the daemon's event-name set is not the seventeen
names the claim lists — `device_adding` is accepted by the code (the
stem-suffix product also produces `device_adding` and `device_removing`)
but absent from the claimed list. -/
theorem event_names_not_the_seventeen :
    ¬ (∀ n : String, n ∈ event_names ↔ n ∈ spec_event_names) := by
  intro h
  have hmem : "device_adding" ∈ event_names := by decide
  exact absurd ((h "device_adding").mp hmem) (by decide)

/-- C8, amended: the event-name set has exactly nineteen distinct names —
the seventeen listed by the claim plus `device_adding` and
`device_removing`. -/
theorem event_names_nineteen_characterization :
    event_names.length = 19 ∧ event_names.Nodup
    ∧ (∀ n : String, n ∈ event_names
        ↔ n ∈ spec_event_names ++ ["device_adding", "device_removing"]) := by
  refine ⟨by decide, by decide, fun n => List.Perm.mem_iff ?_⟩
  decide

/-- C8, witness: instantiated at the name `device_adding`. -/
theorem event_names_nineteen_characterization_witness :
    "device_adding" ∈ event_names
      ↔ "device_adding" ∈ spec_event_names ++ ["device_adding", "device_removing"] :=
  event_names_nineteen_characterization.2.2 "device_adding"

/-- C9, the code evaluated at the failing input. The snapshot built from
`props_with_drive` stores the drive path `drv`; the Daemon registry
currently holds an invalidated entry for `drv`, so registry resolution as
the claim (and the code's own docstring) demands — `drive_spec` — would
yield that invalid cached entry. But the accessor ignores the registry
and yields the fresh live view from the Sniffer, a different device state
(valid and mounted); and on a snapshot whose stored path is `None` the
accessor raises inside `bus.get_object` instead of returning absence. -/
theorem cached_accessor_resolves_via_live_source :
    (CachedDevice.ofOnline props_with_drive).drive sniffer_mounted
      = Except.ok props_mounted
    ∧ CachedDevice.drive_spec (CachedDevice.ofOnline props_with_drive) st_drv_invalid
      = some dev_drv_invalid
    ∧ CachedDevice.ofOnline props_mounted ≠ dev_drv_invalid
    ∧ (CachedDevice.ofOnline props_mounted).drive sniffer_mounted
      = Except.error PyErr.typeError :=
  ⟨rfl, rfl, by decide, rfl⟩

/-- C10: a terminal notification with a recognized kind for an identifier
with no recorded Job, whose success predicate holds on the current cached
state, publishes the succeeded event and then raises `KeyError` from
deleting the missing job-map entry — the success branch implicitly
requires a previously recorded Job entry. -/
theorem missing_job_success_raises_keyerror (s : DaemonState) (p k a en : String)
    (pct : Int)
    (hnojob : alGet s.jobs p = none)
    (ha : alGet action_mapping k = some a)
    (hen : alGet event_mapping a = some en)
    (hsucc : check_success k (s.get p) = Except.ok true) :
    device_job_changed s p false k pct
      = ([Event.plainE (en ++ "ed") (s.get p)], Except.error PyErr.keyError) := by
  have heff : effective_job_id s p false k = k := by simp [effective_job_id, hnojob]
  simp [device_job_changed, heff, ha, hen, hsucc, hnojob]

/-- C10, witness: on `st_no_job` (mounted snapshot cached, empty job map)
a terminal mount notification publishes `device_mounted` and raises. -/
theorem missing_job_success_raises_keyerror_witness :
    device_job_changed st_no_job "d1" false "FilesystemMount" 50
      = ([Event.plainE "device_mounted" (some dev_mounted_fresh)],
         Except.error PyErr.keyError) :=
  missing_job_success_raises_keyerror st_no_job "d1" "FilesystemMount" "mount"
    "device_mount" 50 rfl (by decide) (by decide) rfl
